import Mathlib

/-!
Shallow embedding of `src/cache.py` (class `F1DataCache`) from the f1cal
repository, together with theorems settling the specification claims about
the background polling cache.

Modelling conventions:
* Python `datetime` values are modelled by `PyDateTime`: the wall-clock
  reading as microseconds since the epoch (`usec`) plus an optional UTC
  offset (`tz`).  `datetime.now()` returns a naive datetime, so the embedding
  of every `datetime.now()` call site produces `tz = Option.none`.
* `datetime.isoformat` / `str(datetime)` and `datetime.fromisoformat` are a
  lossless bijection between datetimes and their ISO-8601 renderings (both
  renderings carry exactly the wall-clock fields and the optional offset and
  are accepted by `fromisoformat`).  Strings are therefore modelled by
  `JStr`: either plain text, or the ISO rendering of a datetime identified
  with the datetime it renders.
* Python values that flow through the cache are modelled by `PyVal`
  (dicts as ordered association lists, floats as rationals); JSON documents
  by `JVal`.  `json.dump`/`json.load` are a lossless bijection between
  serialisable values and their text, so the persisted file is modelled as
  holding a `JVal` directly; `json.dump(..., default=str)` is `pyToJson`
  (datetimes become their ISO strings) and `json.load` is `jsonToPy`.
* Clock reads (`datetime.now()`) are passed in as explicit integer tick
  parameters, in the order the source performs them.
* `try/except` bodies are translated to `Except`-valued functions; the
  wrapping handler is the surrounding total function, so "never raises" is
  visible in the return type.
-/

/-- A Python `datetime`: wall-clock reading in microseconds since the epoch,
plus an optional UTC offset in minutes (`Option.none` for naive datetimes,
which is what `datetime.now()` produces). -/
structure PyDateTime where
  usec : Int
  tz : Option Int
deriving DecidableEq, Repr

/-- Python `datetime.now()` at clock tick `t`: a naive datetime (no timezone). -/
def datetime_now (t : Int) : PyDateTime := ⟨t, Option.none⟩

/-- A Python string as it occurs in this program: either plain text, or the
ISO-8601 rendering of a datetime (identified with the datetime it renders,
since `isoformat`/`str` and `fromisoformat` are mutually inverse on this
format). -/
inductive JStr where
  | text (s : String)
  | iso (t : PyDateTime)
deriving DecidableEq, Repr

/-- Python `datetime.fromisoformat`: succeeds exactly on ISO renderings, raising
`ValueError` (modelled as `Except.error`) on any other string. -/
def fromisoformat (s : JStr) : Except String PyDateTime :=
  match s with
  | .iso t => .ok t
  | .text _ => .error "ValueError: Invalid isoformat string"

/-- Python values flowing through the cache layer. Dicts are ordered
association lists (Python dicts preserve insertion order); floats are
rationals. -/
inductive PyVal where
  | pynone
  | pybool (b : Bool)
  | pystr (s : JStr)
  | pyint (n : Int)
  | pyfloat (q : Rat)
  | pydt (t : PyDateTime)
  | pylist (xs : List PyVal)
  | pydict (kvs : List (String × PyVal))

/-- JSON values (what `json.load` can produce / `json.dump` can write). -/
inductive JVal where
  | jnull
  | jbool (b : Bool)
  | jstr (s : JStr)
  | jint (n : Int)
  | jnum (q : Rat)
  | jarr (xs : List JVal)
  | jobj (kvs : List (String × JVal))

/-- Dict lookup, first matching key (Python dicts hold each key once). -/
def dictGet : List (String × PyVal) → String → Option PyVal
  | [], _ => Option.none
  | (k', v') :: rest, k => if k' = k then some v' else dictGet rest k

/-- Dict update `d[k] = v`: replaces the first binding of `k` in place,
appends if absent (Python insertion-order semantics). -/
def dictSet : List (String × PyVal) → String → PyVal → List (String × PyVal)
  | [], k, v => [(k, v)]
  | (k', v') :: rest, k, v =>
      if k' = k then (k', v) :: rest else (k', v') :: dictSet rest k v

/-- JSON object lookup (`dict.get` on the parsed document). -/
def jDictGet : List (String × JVal) → String → Option JVal
  | [], _ => Option.none
  | (k', v') :: rest, k => if k' = k then some v' else jDictGet rest k

/-- Python truthiness for the values this program tests with `if x:`. -/
def pyTruthy : PyVal → Bool
  | .pynone => false
  | .pybool b => b
  | .pystr (.text s) => !(s = "")
  | .pystr (.iso _) => true
  | .pyint n => !(n = 0)
  | .pyfloat q => !(q = 0)
  | .pydt _ => true
  | .pylist xs => !xs.isEmpty
  | .pydict kvs => !kvs.isEmpty

mutual

/-- Serialisation `json.dump(..., default=str)` of a Python value: datetimes are rendered
by `str`, i.e. become their ISO strings. -/
def pyToJson : PyVal → JVal
  | .pynone => .jnull
  | .pybool b => .jbool b
  | .pystr s => .jstr s
  | .pyint n => .jint n
  | .pyfloat q => .jnum q
  | .pydt t => .jstr (.iso t)
  | .pylist xs => .jarr (pyToJsonList xs)
  | .pydict kvs => .jobj (pyToJsonKvs kvs)

def pyToJsonList : List PyVal → List JVal
  | [] => []
  | x :: xs => pyToJson x :: pyToJsonList xs

def pyToJsonKvs : List (String × PyVal) → List (String × JVal)
  | [] => []
  | (k, v) :: kvs => (k, pyToJson v) :: pyToJsonKvs kvs

end

mutual

/-- Parsing `json.load`: the Python value a JSON document parses to. -/
def jsonToPy : JVal → PyVal
  | .jnull => .pynone
  | .jbool b => .pybool b
  | .jstr s => .pystr s
  | .jint n => .pyint n
  | .jnum q => .pyfloat q
  | .jarr xs => .pylist (jsonToPyList xs)
  | .jobj kvs => .pydict (jsonToPyKvs kvs)

def jsonToPyList : List JVal → List PyVal
  | [] => []
  | x :: xs => jsonToPy x :: jsonToPyList xs

def jsonToPyKvs : List (String × JVal) → List (String × PyVal)
  | [] => []
  | (k, v) :: kvs => (k, jsonToPy v) :: jsonToPyKvs kvs

end

mutual

/-- A value contains no `datetime` objects (so `default=str` never fires on
it and JSON round-trips it unchanged). -/
def dtFree : PyVal → Bool
  | .pynone => true
  | .pybool _ => true
  | .pystr _ => true
  | .pyint _ => true
  | .pyfloat _ => true
  | .pydt _ => false
  | .pylist xs => dtFreeList xs
  | .pydict kvs => dtFreeKvs kvs

def dtFreeList : List PyVal → Bool
  | [] => true
  | x :: xs => dtFree x && dtFreeList xs

def dtFreeKvs : List (String × PyVal) → Bool
  | [] => true
  | (_, v) :: kvs => dtFree v && dtFreeKvs kvs

end

/-- Python's banker's rounding to the nearest integer (`round(x)`):
half-way values round to the even neighbour. -/
def roundHalfEven (x : Rat) : Int :=
  let f : Int := ⌊x⌋
  let r : Rat := x - f
  if r < 1/2 then f
  else if 1/2 < r then f + 1
  else if f % 2 = 0 then f else f + 1

/-- Python's `round(x, 1)`: round to one decimal place.  (The source applies
it to a float; ties may differ there by binary-float representation noise,
which is below this embedding's resolution.) -/
def pyRound1 (x : Rat) : Rat := (roundHalfEven (x * 10) : Rat) / 10

/-- The mutable attributes of an `F1DataCache` instance that the claims are
about, plus the configured `poll_interval` (in microseconds; the constructor
sets it to `timedelta(hours=poll_interval_hours)`). -/
structure CacheState where
  cached_data : Option PyVal
  last_update : Option PyDateTime
  update_in_progress : Bool
  poll_interval : Int

/-- Embedding of `F1DataCache.should_update` (src/cache.py lines 174-180), with the
`datetime.now()` read passed in as `now_t`.  Reads state, mutates nothing. -/
def should_update (st : CacheState) (now_t : Int) : Bool :=
  match st.last_update with
  | Option.none => true
  | some lu => decide (st.poll_interval ≤ now_t - lu.usec)

/-- The on-disk cache file: missing, unreadable-or-unparsable (either makes
`open`/`json.load` raise), or a parsed JSON document. -/
inductive FileState where
  | missing
  | corrupt
  | json (j : JVal)

/-- The file-system slice the cache touches: the target cache file and the
temporary sibling `<cache_file>.tmp`. -/
structure FS where
  file : FileState
  tmp : Option JVal

/-- Python `'last_updated' in v` for the containers this program can load;
non-container values raise `TypeError`. -/
def py_contains_last_updated (v : PyVal) : Except String Bool :=
  match v with
  | .pydict kvs => .ok ((dictGet kvs "last_updated").isSome)
  | .pylist xs =>
      .ok (xs.any fun x =>
        match x with
        | .pystr (.text s) => s = "last_updated"
        | _ => false)
  | .pystr (.text s) => .ok ((s.splitOn "last_updated").length > 1)
  | .pystr (.iso _) => .ok false
  | _ => .error "TypeError: argument is not iterable"

/-- Python `v['last_updated']`: dict lookup; anything else raises. -/
def py_subscript_last_updated (v : PyVal) : Except String PyVal :=
  match v with
  | .pydict kvs =>
      match dictGet kvs "last_updated" with
      | some x => .ok x
      | Option.none => .error "KeyError: last_updated"
  | _ => .error "TypeError: indices must be integers"

/-- Python `v['last_updated'] = x`: dict store; anything else raises. -/
def py_store_last_updated (v : PyVal) (x : PyVal) : Except String PyVal :=
  match v with
  | .pydict kvs => .ok (.pydict (dictSet kvs "last_updated" x))
  | _ => .error "TypeError: does not support item assignment"

/-- The `try` body of `F1DataCache.load_cache` (src/cache.py lines 42-53)
for an existing file that parsed to `j`: assigns `cached_data` from the
`data` key, `last_update` from the `last_update` key when truthy, then
converts a string-valued `cached_data['last_updated']` back to a datetime.
Any raise surfaces as `Except.error`. -/
def load_cache_body (st : CacheState) (j : JVal) : Except String CacheState := do
  let kvs ← match j with
    | .jobj kvs => Except.ok kvs
    | _ => Except.error "AttributeError: no method get"
  let st1 := { st with cached_data := (jDictGet kvs "data").map jsonToPy }
  let last_update_str := (jDictGet kvs "last_update").map jsonToPy
  let st2 ← match last_update_str with
    | some v =>
      if pyTruthy v then
        match v with
        | .pystr s => do
            let t ← fromisoformat s
            pure { st1 with last_update := some t }
        | _ => Except.error "TypeError: fromisoformat argument must be str"
      else pure st1
    | Option.none => pure st1
  match st2.cached_data with
  | some cd =>
    if pyTruthy cd then do
      let mem ← py_contains_last_updated cd
      if mem then
        match ← py_subscript_last_updated cd with
        | .pystr s => do
            let t ← fromisoformat s
            let cd' ← py_store_last_updated cd (.pydt t)
            pure { st2 with cached_data := some cd' }
        | _ => pure st2
      else pure st2
    else pure st2
  | Option.none => pure st2

/-- Embedding of `F1DataCache.load_cache` (src/cache.py lines 38-59).  Total: the whole
body sits in `try/except Exception`; a missing file only logs, and any raise
resets `cached_data` and `last_update` to `None`. -/
def load_cache (st : CacheState) (file : FileState) : CacheState :=
  match file with
  | .missing => st
  | .corrupt => { st with cached_data := Option.none, last_update := Option.none }
  | .json j =>
    match load_cache_body st j with
    | .ok st' => st'
    | .error _ => { st with cached_data := Option.none, last_update := Option.none }

/-- The document `save_cache` serialises: `{data: ..., last_update:
datetime.now().isoformat()}` (src/cache.py lines 64-67). -/
def cache_file_content (data : PyVal) (now_t : Int) : JVal :=
  .jobj [("data", pyToJson data), ("last_update", .jstr (.iso (datetime_now now_t)))]

/-- Embedding of `F1DataCache.save_cache` (src/cache.py lines 61-78): write the document
to the temporary sibling, then `os.rename` it over the target.  The two
failure-injection flags model a raise during the write and during the
rename; either lands in `except Exception`, which only logs — the function
is total and the target file is replaced atomically or not at all. -/
def save_cache (fs : FS) (data : PyVal) (now_t : Int)
    (write_fails rename_fails : Bool) : FS :=
  let content := cache_file_content data now_t
  if write_fails then { fs with tmp := Option.none }
  else if rename_fails then { fs with tmp := some content }
  else { file := .json content, tmp := Option.none }

/-- Embedding of `F1DataCache.fetch_fresh_data` (src/cache.py lines 80-113): run the
three provider calls in order (each modelled as a result-or-raise
parameter); re-raise the first failure, otherwise assemble the data dict
with `last_updated = datetime.now()` (tick `t1`) and a `None` duration. -/
def fetch_fresh_data (ne sd ea : Except String PyVal) (t1 : Int) :
    Except String (List (String × PyVal)) := do
  let nev ← ne
  let sdv ← sd
  let eav ← ea
  pure [("next_event", nev), ("standings", sdv), ("event_after_next", eav),
        ("last_updated", .pydt (datetime_now t1)),
        ("fetch_duration_minutes", .pynone)]

/-- Embedding of `F1DataCache.update_data` (src/cache.py lines 115-143).  Clock reads in
source order: `t0` = `start_time`, `t1` = `last_updated` inside
`fetch_fresh_data`, `t2` = the duration measurement, `t3` = the
`self.last_update` assignment, `t4` = `datetime.now()` inside `save_cache`.
The `except` logs any fetch failure and the `finally` clears
`update_in_progress`, so the function is total. -/
def update_data (st : CacheState) (fs : FS) (ne sd ea : Except String PyVal)
    (t0 t1 t2 t3 t4 : Int) (write_fails rename_fails : Bool) : CacheState × FS :=
  if st.update_in_progress then (st, fs)
  else
    match fetch_fresh_data ne sd ea t1 with
    | .error _ => ({ st with update_in_progress := false }, fs)
    | .ok fresh =>
      let fetch_duration_usec : Int := t2 - t0
      let fresh' := dictSet fresh "fetch_duration_minutes"
        (.pyfloat (pyRound1 ((fetch_duration_usec : Rat) / 60000000)))
      let st' := { st with cached_data := some (.pydict fresh'),
                           last_update := some (datetime_now t3),
                           update_in_progress := false }
      (st', save_cache fs (.pydict fresh') t4 write_fails rename_fails)

/-- The empty dataset `get_data` returns when no fetch has ever succeeded
(src/cache.py lines 155-161), with `last_updated = datetime.now()`. -/
def empty_dataset (t : Int) : PyVal :=
  .pydict [("next_event", .pynone),
           ("standings", .pydict [("drivers", .pylist []), ("constructors", .pylist [])]),
           ("event_after_next", .pynone),
           ("last_updated", .pydt (datetime_now t)),
           ("error", .pystr (.text "Unable to fetch F1 data"))]

/-- Lines 163-172 of `get_data`: copy the cached dict, convert a
string-valued `last_updated` back to a datetime (uncaught `ValueError` can
propagate here), or default a missing one to `self.last_update or
datetime.now()`. -/
def get_data_postprocess (d : PyVal) (lu : Option PyDateTime) (t5 : Int) :
    Except String PyVal :=
  match d with
  | .pydict kvs =>
    match dictGet kvs "last_updated" with
    | some (.pystr s) => do
        let t ← fromisoformat s
        pure (.pydict (dictSet kvs "last_updated" (.pydt t)))
    | some _ => pure (.pydict kvs)
    | Option.none =>
        pure (.pydict (dictSet kvs "last_updated"
          (match lu with
           | some t => .pydt t
           | Option.none => .pydt (datetime_now t5))))
  | _ => .error "TypeError: no copy"

/-- Embedding of `F1DataCache.get_data` (src/cache.py lines 145-172): fetch synchronously
when `cached_data is None`; if still `None`, return the error-flagged empty
dataset; otherwise return the post-processed copy of the cached dict.
`t5` is the `datetime.now()` read on whichever of those two late call sites
executes. -/
def get_data (st : CacheState) (fs : FS) (ne sd ea : Except String PyVal)
    (t0 t1 t2 t3 t4 : Int) (write_fails rename_fails : Bool) (t5 : Int) :
    Except String (CacheState × FS × PyVal) :=
  let p :=
    if st.cached_data.isNone then
      update_data st fs ne sd ea t0 t1 t2 t3 t4 write_fails rename_fails
    else (st, fs)
  match p.1.cached_data with
  | Option.none => .ok (p.1, p.2, empty_dataset t5)
  | some d => do
      let d' ← get_data_postprocess d p.1.last_update t5
      pure (p.1, p.2, d')

/-- Embedding of `F1DataCache.get_cache_status` (src/cache.py lines 219-227). -/
def get_cache_status (st : CacheState) (now_t : Int) : List (String × PyVal) :=
  [("has_cached_data", .pybool st.cached_data.isSome),
   ("last_update", match st.last_update with
      | some t => .pystr (.iso t)
      | Option.none => .pynone),
   ("update_in_progress", .pybool st.update_in_progress),
   ("should_update", .pybool (should_update st now_t)),
   ("cache_age_hours", match st.last_update with
      | some t => .pyfloat (pyRound1 ((now_t - t.usec : Rat) / 3600000000))
      | Option.none => .pynone)]

/-- Field lookup on a Python value that is expected to be a dict. -/
def pyDictGet (v : PyVal) (k : String) : Option PyVal :=
  match v with
  | .pydict kvs => dictGet kvs k
  | _ => Option.none

/-- Field lookup inside the cached data dict of a cache state. -/
def cachedField (st : CacheState) (k : String) : Option PyVal :=
  match st.cached_data with
  | some d => pyDictGet d k
  | Option.none => Option.none

theorem fetch_fresh_data_error (ne sd ea : Except String PyVal) (t1 : Int)
    (h : (∃ e, ne = Except.error e) ∨ (∃ e, sd = Except.error e) ∨
      (∃ e, ea = Except.error e)) :
    ∃ e, fetch_fresh_data ne sd ea t1 = Except.error e := by
  cases ne with
  | error e => exact ⟨e, rfl⟩
  | ok nev =>
    cases sd with
    | error e => exact ⟨e, rfl⟩
    | ok sdv =>
      cases ea with
      | error e => exact ⟨e, rfl⟩
      | ok eav =>
        rcases h with ⟨e, he⟩ | ⟨e, he⟩ | ⟨e, he⟩ <;> simp at he

theorem fetch_fresh_data_ok (nev sdv eav : PyVal) (t1 : Int) :
    fetch_fresh_data (Except.ok nev) (Except.ok sdv) (Except.ok eav) t1 =
      Except.ok [("next_event", nev), ("standings", sdv),
        ("event_after_next", eav),
        ("last_updated", PyVal.pydt (datetime_now t1)),
        ("fetch_duration_minutes", PyVal.pynone)] := rfl

/-- C3: `should_update` returns true when `last_update` is `None`, and
otherwise true iff `now - last_update >= poll_interval`; in the embedding it
is a pure function `CacheState → Int → Bool` of the triple
(last-success time, now, interval), with no effect on the state. -/
theorem should_update_freshness (st : CacheState) (now_t : Int) :
    should_update st now_t = true ↔
      (st.last_update = Option.none ∨
        ∃ lu, st.last_update = some lu ∧ st.poll_interval ≤ now_t - lu.usec) := by
  cases h : st.last_update with
  | none => simp [should_update, h]
  | some lu =>
    simp only [should_update, h]
    constructor
    · intro hd
      exact Or.inr ⟨lu, rfl, of_decide_eq_true hd⟩
    · rintro (hc | ⟨lu', hlu', hle⟩)
      · exact absurd hc (by simp)
      · cases Option.some.inj hlu'
        exact decide_eq_true hle

/-- C2: if a provider sub-fetch raises during `update_data`, then after the
call returns (no exception escapes: the `except` catches it and the function
is total) the cached snapshot and the last-success timestamp are unchanged
and `update_in_progress` is false, the `finally` having cleared it. -/
theorem update_data_failure_isolation
    (st : CacheState) (fs : FS) (ne sd ea : Except String PyVal)
    (t0 t1 t2 t3 t4 : Int) (wf rf : Bool)
    (hflag : st.update_in_progress = false)
    (hfail : (∃ e, ne = Except.error e) ∨ (∃ e, sd = Except.error e) ∨
      (∃ e, ea = Except.error e)) :
    (update_data st fs ne sd ea t0 t1 t2 t3 t4 wf rf).1.cached_data = st.cached_data ∧
    (update_data st fs ne sd ea t0 t1 t2 t3 t4 wf rf).1.last_update = st.last_update ∧
    (update_data st fs ne sd ea t0 t1 t2 t3 t4 wf rf).1.update_in_progress = false ∧
    (update_data st fs ne sd ea t0 t1 t2 t3 t4 wf rf).2 = fs := by
  obtain ⟨e, hf⟩ := fetch_fresh_data_error ne sd ea t1 hfail
  simp [update_data, hflag, hf]

/-- Witness for C2 at a concrete state with cached data and a failing
second sub-fetch. -/
theorem update_data_failure_isolation_witness :
    (update_data ⟨some (PyVal.pyint 1), some (datetime_now 7), false, 100⟩
        ⟨FileState.missing, Option.none⟩ (Except.ok PyVal.pynone)
        (Except.error "boom") (Except.ok PyVal.pynone)
        0 1 2 3 4 false false).1.cached_data = some (PyVal.pyint 1) ∧
    (update_data ⟨some (PyVal.pyint 1), some (datetime_now 7), false, 100⟩
        ⟨FileState.missing, Option.none⟩ (Except.ok PyVal.pynone)
        (Except.error "boom") (Except.ok PyVal.pynone)
        0 1 2 3 4 false false).1.last_update = some (datetime_now 7) ∧
    (update_data ⟨some (PyVal.pyint 1), some (datetime_now 7), false, 100⟩
        ⟨FileState.missing, Option.none⟩ (Except.ok PyVal.pynone)
        (Except.error "boom") (Except.ok PyVal.pynone)
        0 1 2 3 4 false false).1.update_in_progress = false ∧
    (update_data ⟨some (PyVal.pyint 1), some (datetime_now 7), false, 100⟩
        ⟨FileState.missing, Option.none⟩ (Except.ok PyVal.pynone)
        (Except.error "boom") (Except.ok PyVal.pynone)
        0 1 2 3 4 false false).2 = ⟨FileState.missing, Option.none⟩ :=
  update_data_failure_isolation _ _ _ _ _ _ _ _ _ _ _ _ rfl
    (Or.inr (Or.inl ⟨"boom", rfl⟩))

/-- C5 (amended): on a fully successful `update_data` run, the installed
snapshot carries no `error` key (so reading it yields `None`), its
`last_updated` is the clock read taken inside `fetch_fresh_data` (`t1`), its
duration field is `fetch_duration_minutes` — the elapsed time `t2 - t0`
converted to minutes and rounded to one decimal place, not the elapsed
seconds — and `last_update` is the separate, later clock read `t3`, not the
snapshot's `last_updated`. -/
theorem update_data_success_fields
    (st : CacheState) (fs : FS) (nev sdv eav : PyVal)
    (t0 t1 t2 t3 t4 : Int) (wf rf : Bool)
    (hflag : st.update_in_progress = false) :
    cachedField (update_data st fs (Except.ok nev) (Except.ok sdv) (Except.ok eav)
        t0 t1 t2 t3 t4 wf rf).1 "fetch_duration_minutes"
      = some (PyVal.pyfloat (pyRound1 (((t2 - t0 : Int) : Rat) / 60000000))) ∧
    cachedField (update_data st fs (Except.ok nev) (Except.ok sdv) (Except.ok eav)
        t0 t1 t2 t3 t4 wf rf).1 "error" = Option.none ∧
    cachedField (update_data st fs (Except.ok nev) (Except.ok sdv) (Except.ok eav)
        t0 t1 t2 t3 t4 wf rf).1 "last_updated"
      = some (PyVal.pydt (datetime_now t1)) ∧
    (update_data st fs (Except.ok nev) (Except.ok sdv) (Except.ok eav)
        t0 t1 t2 t3 t4 wf rf).1.last_update = some (datetime_now t3) := by
  simp [update_data, hflag, fetch_fresh_data_ok, cachedField, pyDictGet,
    dictSet, dictGet]

/-- Witness for C5's amended theorem at concrete inputs. -/
theorem update_data_success_fields_witness :
    cachedField (update_data ⟨Option.none, Option.none, false, 100⟩
        ⟨FileState.missing, Option.none⟩ (Except.ok PyVal.pynone)
        (Except.ok PyVal.pynone) (Except.ok PyVal.pynone)
        0 1 2 3 4 false false).1 "fetch_duration_minutes"
      = some (PyVal.pyfloat (pyRound1 (((2 - 0 : Int) : Rat) / 60000000))) ∧
    cachedField (update_data ⟨Option.none, Option.none, false, 100⟩
        ⟨FileState.missing, Option.none⟩ (Except.ok PyVal.pynone)
        (Except.ok PyVal.pynone) (Except.ok PyVal.pynone)
        0 1 2 3 4 false false).1 "error" = Option.none ∧
    cachedField (update_data ⟨Option.none, Option.none, false, 100⟩
        ⟨FileState.missing, Option.none⟩ (Except.ok PyVal.pynone)
        (Except.ok PyVal.pynone) (Except.ok PyVal.pynone)
        0 1 2 3 4 false false).1 "last_updated"
      = some (PyVal.pydt (datetime_now 1)) ∧
    (update_data ⟨Option.none, Option.none, false, 100⟩
        ⟨FileState.missing, Option.none⟩ (Except.ok PyVal.pynone)
        (Except.ok PyVal.pynone) (Except.ok PyVal.pynone)
        0 1 2 3 4 false false).1.last_update = some (datetime_now 3) :=
  update_data_success_fields _ _ _ _ _ _ _ _ _ _ _ _ rfl

/-- A concrete fully successful `update_data` run: the refresh starts at
tick 0 (`start_time`), `fetch_fresh_data` stamps `last_updated` at tick
10000000 (10 s), the duration is measured at tick 100000000 (100 s elapsed),
and `self.last_update` is assigned at tick 101000000. -/
def c5_run : CacheState × FS :=
  update_data ⟨Option.none, Option.none, false, 43200000000⟩
    ⟨FileState.missing, Option.none⟩ (Except.ok PyVal.pynone)
    (Except.ok (PyVal.pydict [("drivers", PyVal.pylist []),
      ("constructors", PyVal.pylist [])]))
    (Except.ok PyVal.pynone) 0 10000000 100000000 101000000 102000000 false false

/-- C5 counterexample: in the run `c5_run` the elapsed time is 100 seconds
(= 5/3 minutes) but the stored duration field is `round(100/60, 1) = 1.7`
minutes — equal neither to the elapsed seconds nor to the exact elapsed
minutes — and `last_update` is the fresh clock read at tick 101000000, not
the snapshot's `fetched_at` (`last_updated`, tick 10000000).  Both parts of
the claim fail on this input. -/
theorem update_data_clock_counterexample :
    cachedField c5_run.1 "fetch_duration_minutes"
        = some (PyVal.pyfloat (17/10)) ∧
    (17/10 : Rat) ≠ 100 ∧
    (17/10 : Rat) ≠ 5/3 ∧
    cachedField c5_run.1 "last_updated"
        = some (PyVal.pydt (datetime_now 10000000)) ∧
    c5_run.1.last_update = some (datetime_now 101000000) ∧
    datetime_now 101000000 ≠ datetime_now 10000000 := by
  refine ⟨?_, by norm_num, by norm_num, ?_, ?_, by simp [datetime_now]⟩
  · simp [c5_run, update_data, fetch_fresh_data_ok, cachedField, pyDictGet,
      dictSet, dictGet]
    norm_num [pyRound1, roundHalfEven]
  · simp [c5_run, update_data, fetch_fresh_data_ok, cachedField, pyDictGet,
      dictSet, dictGet]
  · simp [c5_run, update_data, fetch_fresh_data_ok]

/-- C4: when no fetch has ever succeeded (`cached_data` is `None` and the
synchronous attempt fails too), `get_data` does not raise: it returns the
explicitly error-flagged empty dataset — `error` set, empty driver and
constructor standings, both events `None` — without caching it, and
`get_cache_status` afterwards reports `has_cached_data = false`. -/
theorem get_data_no_data_error_snapshot
    (st : CacheState) (fs : FS) (sd ea : Except String PyVal) (e : String)
    (t0 t1 t2 t3 t4 : Int) (wf rf : Bool) (t5 t6 : Int)
    (hcd : st.cached_data = Option.none) :
    ∃ st1, get_data st fs (Except.error e) sd ea t0 t1 t2 t3 t4 wf rf t5 =
        Except.ok (st1, fs, empty_dataset t5) ∧
      st1.cached_data = Option.none ∧
      pyDictGet (empty_dataset t5) "error"
        = some (PyVal.pystr (JStr.text "Unable to fetch F1 data")) ∧
      pyDictGet (empty_dataset t5) "standings"
        = some (PyVal.pydict [("drivers", PyVal.pylist []),
            ("constructors", PyVal.pylist [])]) ∧
      pyDictGet (empty_dataset t5) "next_event" = some PyVal.pynone ∧
      pyDictGet (empty_dataset t5) "event_after_next" = some PyVal.pynone ∧
      dictGet (get_cache_status st1 t6) "has_cached_data"
        = some (PyVal.pybool false) := by
  have hf : fetch_fresh_data (Except.error e) sd ea t1 = Except.error e := rfl
  by_cases hup : st.update_in_progress
  · refine ⟨st, ?_, hcd, rfl, rfl, rfl, rfl, ?_⟩
    · simp [get_data, update_data, hcd, hup]
    · simp [get_cache_status, dictGet, hcd]
  · refine ⟨{ st with update_in_progress := false }, ?_, hcd, rfl, rfl, rfl, rfl, ?_⟩
    · simp [get_data, update_data, hcd, hup, hf]
    · simp [get_cache_status, dictGet, hcd]

/-- Witness for C4 at a concrete empty cache with a failing provider. -/
theorem get_data_no_data_error_snapshot_witness :
    ∃ st1, get_data ⟨Option.none, Option.none, false, 100⟩
        ⟨FileState.missing, Option.none⟩ (Except.error "down")
        (Except.ok PyVal.pynone) (Except.ok PyVal.pynone)
        0 1 2 3 4 false false 9 =
        Except.ok (st1, ⟨FileState.missing, Option.none⟩, empty_dataset 9) ∧
      st1.cached_data = Option.none ∧
      pyDictGet (empty_dataset 9) "error"
        = some (PyVal.pystr (JStr.text "Unable to fetch F1 data")) ∧
      pyDictGet (empty_dataset 9) "standings"
        = some (PyVal.pydict [("drivers", PyVal.pylist []),
            ("constructors", PyVal.pylist [])]) ∧
      pyDictGet (empty_dataset 9) "next_event" = some PyVal.pynone ∧
      pyDictGet (empty_dataset 9) "event_after_next" = some PyVal.pynone ∧
      dictGet (get_cache_status st1 10) "has_cached_data"
        = some (PyVal.pybool false) :=
  get_data_no_data_error_snapshot _ _ _ _ _ _ _ _ _ _ _ _ _ _ rfl

/-- C10: the error-flagged empty dataset returned by `get_data` is never
stored: afterwards `cached_data` is still `None` and the status reports no
data, so a subsequent `get_data` call attempts a fresh fetch — here a second
call with a now-succeeding provider installs and returns the fresh snapshot
(whose returned dict carries no `error` key) instead of a cached error. -/
theorem error_snapshot_not_cached
    (st : CacheState) (fs : FS) (e : String) (sd ea : Except String PyVal)
    (nev2 sdv2 eav2 : PyVal)
    (t0 t1 t2 t3 t4 t5 t6 u0 u1 u2 u3 u4 u5 : Int) (wf rf wf2 rf2 : Bool)
    (hcd : st.cached_data = Option.none)
    (hflag : st.update_in_progress = false) :
    ∃ st1,
      get_data st fs (Except.error e) sd ea t0 t1 t2 t3 t4 wf rf t5 =
        Except.ok (st1, fs, empty_dataset t5) ∧
      st1.cached_data = Option.none ∧
      dictGet (get_cache_status st1 t6) "has_cached_data"
        = some (PyVal.pybool false) ∧
      ∃ st2 fs2 kvs,
        get_data st1 fs (Except.ok nev2) (Except.ok sdv2) (Except.ok eav2)
            u0 u1 u2 u3 u4 wf2 rf2 u5 =
          Except.ok (st2, fs2, PyVal.pydict kvs) ∧
        st2.cached_data = some (PyVal.pydict kvs) ∧
        dictGet kvs "error" = Option.none ∧
        dictGet kvs "standings" = some sdv2 := by
  have hf : fetch_fresh_data (Except.error e) sd ea t1 = Except.error e := rfl
  refine ⟨{ st with update_in_progress := false }, ?_, hcd, ?_, ?_⟩
  · simp [get_data, update_data, hcd, hflag, hf]
  · simp [get_cache_status, dictGet, hcd]
  · refine ⟨⟨some (PyVal.pydict
        [("next_event", nev2), ("standings", sdv2), ("event_after_next", eav2),
         ("last_updated", PyVal.pydt (datetime_now u1)),
         ("fetch_duration_minutes",
           PyVal.pyfloat (pyRound1 (((u2 - u0 : Int) : Rat) / 60000000)))]),
        some (datetime_now u3), false, st.poll_interval⟩,
      save_cache fs (PyVal.pydict
        [("next_event", nev2), ("standings", sdv2), ("event_after_next", eav2),
         ("last_updated", PyVal.pydt (datetime_now u1)),
         ("fetch_duration_minutes",
           PyVal.pyfloat (pyRound1 (((u2 - u0 : Int) : Rat) / 60000000)))]) u4 wf2 rf2,
      [("next_event", nev2), ("standings", sdv2), ("event_after_next", eav2),
       ("last_updated", PyVal.pydt (datetime_now u1)),
       ("fetch_duration_minutes",
         PyVal.pyfloat (pyRound1 (((u2 - u0 : Int) : Rat) / 60000000)))],
      ?_, ?_, ?_, ?_⟩
    · simp [get_data, update_data, hcd, fetch_fresh_data_ok, dictSet, dictGet,
        get_data_postprocess]
      rfl
    · simp [dictGet]
    · simp [dictGet]
    · simp [dictGet]

/-- Witness for C10 at a concrete empty cache: a failing first call followed
by a succeeding one. -/
theorem error_snapshot_not_cached_witness :
    ∃ st1,
      get_data ⟨Option.none, Option.none, false, 100⟩ ⟨FileState.missing, Option.none⟩
          (Except.error "down") (Except.ok PyVal.pynone) (Except.ok PyVal.pynone)
          0 1 2 3 4 false false 9 =
        Except.ok (st1, ⟨FileState.missing, Option.none⟩, empty_dataset 9) ∧
      st1.cached_data = Option.none ∧
      dictGet (get_cache_status st1 10) "has_cached_data"
        = some (PyVal.pybool false) ∧
      ∃ st2 fs2 kvs,
        get_data st1 ⟨FileState.missing, Option.none⟩ (Except.ok PyVal.pynone)
            (Except.ok (PyVal.pydict [("drivers", PyVal.pylist [])]))
            (Except.ok PyVal.pynone) 20 21 22 23 24 false false 25 =
          Except.ok (st2, fs2, PyVal.pydict kvs) ∧
        st2.cached_data = some (PyVal.pydict kvs) ∧
        dictGet kvs "error" = Option.none ∧
        dictGet kvs "standings"
          = some (PyVal.pydict [("drivers", PyVal.pylist [])]) :=
  error_snapshot_not_cached _ _ _ _ _ _ _ _
    0 1 2 3 4 9 10 20 21 22 23 24 25 false false false false rfl rfl

/-- Program counter of one thread executing `update_data`, at the statement
granularity of src/cache.py: the read-and-branch on `update_in_progress`
(line 117), the assignment `update_in_progress = True` (line 122), and the
provider call sequence (line 125); `done` covers both the early `return` and
normal completion. -/
inductive RefreshPc where
  | check
  | set
  | fetch
  | done
deriving DecidableEq

/-- Shared state of two concurrent `update_data` callers: the
`update_in_progress` flag, each thread's program counter, and how many
provider call sequences have executed. -/
structure RaceConfig where
  flag : Bool
  pc1 : RefreshPc
  pc2 : RefreshPc
  fetches : Nat
deriving DecidableEq

/-- Interleaving semantics of two threads running `update_data`.  The
source guards the refresh with a plain attribute check followed, in a
separate statement, by a plain assignment — no lock — so the check and the
assignment are distinct steps that other threads can interleave between. -/
inductive RaceStep : RaceConfig → RaceConfig → Prop where
  | check1_skip (c : RaceConfig) (h1 : c.pc1 = RefreshPc.check) (h2 : c.flag = true) :
      RaceStep c { c with pc1 := RefreshPc.done }
  | check1_enter (c : RaceConfig) (h1 : c.pc1 = RefreshPc.check) (h2 : c.flag = false) :
      RaceStep c { c with pc1 := RefreshPc.set }
  | set1 (c : RaceConfig) (h1 : c.pc1 = RefreshPc.set) :
      RaceStep c { c with pc1 := RefreshPc.fetch, flag := true }
  | fetch1 (c : RaceConfig) (h1 : c.pc1 = RefreshPc.fetch) :
      RaceStep c { c with pc1 := RefreshPc.done, fetches := c.fetches + 1 }
  | check2_skip (c : RaceConfig) (h1 : c.pc2 = RefreshPc.check) (h2 : c.flag = true) :
      RaceStep c { c with pc2 := RefreshPc.done }
  | check2_enter (c : RaceConfig) (h1 : c.pc2 = RefreshPc.check) (h2 : c.flag = false) :
      RaceStep c { c with pc2 := RefreshPc.set }
  | set2 (c : RaceConfig) (h1 : c.pc2 = RefreshPc.set) :
      RaceStep c { c with pc2 := RefreshPc.fetch, flag := true }
  | fetch2 (c : RaceConfig) (h1 : c.pc2 = RefreshPc.fetch) :
      RaceStep c { c with pc2 := RefreshPc.done, fetches := c.fetches + 1 }

/-- C1 is false on the code: from the initial state (flag clear, both
callers at the check) the interleaving "thread 1 reads the flag, thread 2
reads the flag, then both set it and both fetch" is reachable, ending with
two provider call sequences executed.  The check of `update_in_progress`
(line 117) and its setting (line 122) are separate statements with no lock,
so the check-then-act race does allow two refreshes to run at once. -/
theorem update_in_progress_race_reachable :
    Relation.ReflTransGen RaceStep
      ⟨false, RefreshPc.check, RefreshPc.check, 0⟩
      ⟨true, RefreshPc.done, RefreshPc.done, 2⟩ := by
  have s1 : RaceStep ⟨false, RefreshPc.check, RefreshPc.check, 0⟩
      ⟨false, RefreshPc.set, RefreshPc.check, 0⟩ :=
    RaceStep.check1_enter _ rfl rfl
  have s2 : RaceStep ⟨false, RefreshPc.set, RefreshPc.check, 0⟩
      ⟨false, RefreshPc.set, RefreshPc.set, 0⟩ :=
    RaceStep.check2_enter _ rfl rfl
  have s3 : RaceStep ⟨false, RefreshPc.set, RefreshPc.set, 0⟩
      ⟨true, RefreshPc.fetch, RefreshPc.set, 0⟩ :=
    RaceStep.set1 _ rfl
  have s4 : RaceStep ⟨true, RefreshPc.fetch, RefreshPc.set, 0⟩
      ⟨true, RefreshPc.done, RefreshPc.set, 1⟩ :=
    RaceStep.fetch1 _ rfl
  have s5 : RaceStep ⟨true, RefreshPc.done, RefreshPc.set, 1⟩
      ⟨true, RefreshPc.done, RefreshPc.fetch, 1⟩ :=
    RaceStep.set2 _ rfl
  have s6 : RaceStep ⟨true, RefreshPc.done, RefreshPc.fetch, 1⟩
      ⟨true, RefreshPc.done, RefreshPc.done, 2⟩ :=
    RaceStep.fetch2 _ rfl
  exact .head s1 (.head s2 (.head s3 (.head s4 (.head s5 (.head s6 .refl)))))

/-- C6: `save_cache` on the success path writes the serialised document to
the temporary sibling and renames it over the target (final state: target
holds the document, temp gone); if the write or the rename fails the
failure is swallowed (`save_cache` is total) and the target file is left
untouched; and the in-memory state `update_data` produces is the same
whether or not the save failed — the cache update is not rolled back. -/
theorem save_cache_failure_contained
    (fs : FS) (data : PyVal) (now_t : Int) (wf rf : Bool)
    (st : CacheState) (fs0 : FS) (ne sd ea : Except String PyVal)
    (t0 t1 t2 t3 t4 : Int)
    (hfail : wf = true ∨ rf = true) :
    save_cache fs data now_t false false
        = ⟨FileState.json (cache_file_content data now_t), Option.none⟩ ∧
    (save_cache fs data now_t wf rf).file = fs.file ∧
    (update_data st fs0 ne sd ea t0 t1 t2 t3 t4 wf rf).1
        = (update_data st fs0 ne sd ea t0 t1 t2 t3 t4 false false).1 := by
  refine ⟨rfl, ?_, ?_⟩
  · rcases hfail with h | h
    · subst h; simp [save_cache]
    · subst h; by_cases hw : wf <;> simp [save_cache, hw]
  · by_cases hup : st.update_in_progress
    · simp [update_data, hup]
    · cases hfd : fetch_fresh_data ne sd ea t1 <;> simp [update_data, hup, hfd]

/-- Witness for C6 with a failing rename at concrete inputs. -/
theorem save_cache_failure_contained_witness :
    save_cache ⟨FileState.missing, Option.none⟩ (PyVal.pyint 3) 7 false false
        = ⟨FileState.json (cache_file_content (PyVal.pyint 3) 7), Option.none⟩ ∧
    (save_cache ⟨FileState.missing, Option.none⟩ (PyVal.pyint 3) 7 false true).file
        = FileState.missing ∧
    (update_data ⟨Option.none, Option.none, false, 100⟩ ⟨FileState.missing, Option.none⟩
        (Except.ok PyVal.pynone) (Except.ok PyVal.pynone) (Except.ok PyVal.pynone)
        0 1 2 3 4 false true).1
      = (update_data ⟨Option.none, Option.none, false, 100⟩ ⟨FileState.missing, Option.none⟩
        (Except.ok PyVal.pynone) (Except.ok PyVal.pynone) (Except.ok PyVal.pynone)
        0 1 2 3 4 false false).1 :=
  save_cache_failure_contained _ _ _ _ _ _ _ _ _ _ _ _ _ _ _ (Or.inr rfl)

/-- C8: `load_cache` is total (the whole body is inside
`try/except Exception`), and on every failing file state — missing,
unreadable/unparsable, or parsed content whose processing raises — it
returns with `cached_data` and `last_update` left (startup state) or reset
to `None`. -/
theorem load_cache_failure_resets
    (st : CacheState) (file : FileState)
    (hst : st.cached_data = Option.none ∧ st.last_update = Option.none)
    (hfail : file = FileState.missing ∨ file = FileState.corrupt ∨
      ∃ j, file = FileState.json j ∧ ∃ e, load_cache_body st j = Except.error e) :
    (load_cache st file).cached_data = Option.none ∧
    (load_cache st file).last_update = Option.none := by
  rcases hfail with h | h | ⟨j, hj, e, he⟩
  · subst h; simpa [load_cache] using hst
  · subst h; simp [load_cache]
  · subst hj; simp [load_cache, he]

/-- Witness for C8: a cache file holding a JSON array (no `get` attribute,
so processing raises) resets nothing and leaves the startup `None`s. -/
theorem load_cache_failure_resets_witness :
    (load_cache ⟨Option.none, Option.none, false, 100⟩
        (FileState.json (JVal.jarr []))).cached_data = Option.none ∧
    (load_cache ⟨Option.none, Option.none, false, 100⟩
        (FileState.json (JVal.jarr []))).last_update = Option.none :=
  load_cache_failure_resets _ _ ⟨rfl, rfl⟩
    (Or.inr (Or.inr ⟨JVal.jarr [], rfl, "AttributeError: no method get", rfl⟩))

mutual

theorem jsonToPy_pyToJson : ∀ v : PyVal, dtFree v = true → jsonToPy (pyToJson v) = v
  | .pynone, _ => rfl
  | .pybool _, _ => rfl
  | .pystr _, _ => rfl
  | .pyint _, _ => rfl
  | .pyfloat _, _ => rfl
  | .pydt _, h => by simp [dtFree] at h
  | .pylist xs, h => by
      simp only [pyToJson, jsonToPy]
      rw [jsonToPyList_pyToJsonList xs (by simpa [dtFree] using h)]
  | .pydict kvs, h => by
      simp only [pyToJson, jsonToPy]
      rw [jsonToPyKvs_pyToJsonKvs kvs (by simpa [dtFree] using h)]

theorem jsonToPyList_pyToJsonList :
    ∀ xs : List PyVal, dtFreeList xs = true → jsonToPyList (pyToJsonList xs) = xs
  | [], _ => rfl
  | x :: xs, h => by
      have hx : dtFree x = true := by
        have := h; simp [dtFreeList] at this; exact this.1
      have hxs : dtFreeList xs = true := by
        have := h; simp [dtFreeList] at this; exact this.2
      simp only [pyToJsonList, jsonToPyList]
      rw [jsonToPy_pyToJson x hx, jsonToPyList_pyToJsonList xs hxs]

theorem jsonToPyKvs_pyToJsonKvs :
    ∀ kvs : List (String × PyVal), dtFreeKvs kvs = true →
      jsonToPyKvs (pyToJsonKvs kvs) = kvs
  | [], _ => rfl
  | (k, v) :: kvs, h => by
      have hv : dtFree v = true := by
        have := h; simp [dtFreeKvs] at this; exact this.1
      have hkvs : dtFreeKvs kvs = true := by
        have := h; simp [dtFreeKvs] at this; exact this.2
      simp only [pyToJsonKvs, jsonToPyKvs]
      rw [jsonToPy_pyToJson v hv, jsonToPyKvs_pyToJsonKvs kvs hkvs]

end

/-- The entry list of a snapshot dict exactly as `fetch_fresh_data` +
`update_data` shape it: payloads, a datetime `last_updated`, a duration. -/
def snapshot_kvs (nev sdv eav : PyVal) (t : PyDateTime) (dur : PyVal) :
    List (String × PyVal) :=
  [("next_event", nev), ("standings", sdv), ("event_after_next", eav),
   ("last_updated", PyVal.pydt t), ("fetch_duration_minutes", dur)]

/-- A timestamp carries a timezone qualifier iff it has an offset; the
naive datetimes `datetime.now()` produces do not, and their serialised ISO
forms carry none either. -/
def timezone_qualified (t : PyDateTime) : Bool := t.tz.isSome

/-- C7 (amended): `save_cache` followed by `load_cache` restores the cached
snapshot exactly — every data field is preserved and both timestamps
(the snapshot's `last_updated` and the file-level `last_update`) round-trip
losslessly through their ISO renderings at full microsecond precision —
for any snapshot of the shape the refresh produces (datetime-free payload
fields).  The timestamps, however, are naive `datetime.now()` readings:
nothing in the pipeline attaches a timezone, so the claim's
"timezone-qualified" part does not hold (see the counterexample). -/
theorem save_load_roundtrip
    (st : CacheState) (fs : FS) (nev sdv eav dur : PyVal) (t : PyDateTime)
    (now_t : Int)
    (h1 : dtFree nev = true) (h2 : dtFree sdv = true)
    (h3 : dtFree eav = true) (h4 : dtFree dur = true) :
    (load_cache st (save_cache fs
        (PyVal.pydict (snapshot_kvs nev sdv eav t dur)) now_t false false).file).cached_data
      = some (PyVal.pydict (snapshot_kvs nev sdv eav t dur)) ∧
    (load_cache st (save_cache fs
        (PyVal.pydict (snapshot_kvs nev sdv eav t dur)) now_t false false).file).last_update
      = some (datetime_now now_t) := by
  have hnev := jsonToPy_pyToJson nev h1
  have hsdv := jsonToPy_pyToJson sdv h2
  have heav := jsonToPy_pyToJson eav h3
  have hdur := jsonToPy_pyToJson dur h4
  constructor <;>
    simp [save_cache, cache_file_content, load_cache, load_cache_body,
      snapshot_kvs, pyToJson, pyToJsonKvs, jsonToPy, jsonToPyKvs, jDictGet,
      fromisoformat, pyTruthy, py_contains_last_updated,
      py_subscript_last_updated, py_store_last_updated, dictGet, dictSet,
      bind, Except.bind, pure, Except.pure, hnev, hsdv, heav, hdur]

/-- Witness for C7's amended round-trip at a concrete snapshot. -/
theorem save_load_roundtrip_witness :
    (load_cache ⟨Option.none, Option.none, false, 100⟩
        (save_cache ⟨FileState.missing, Option.none⟩
          (PyVal.pydict (snapshot_kvs PyVal.pynone
            (PyVal.pydict [("drivers", PyVal.pylist []), ("constructors", PyVal.pylist [])])
            PyVal.pynone ⟨123, Option.none⟩ PyVal.pynone)) 5 false false).file).cached_data
      = some (PyVal.pydict (snapshot_kvs PyVal.pynone
          (PyVal.pydict [("drivers", PyVal.pylist []), ("constructors", PyVal.pylist [])])
          PyVal.pynone ⟨123, Option.none⟩ PyVal.pynone)) ∧
    (load_cache ⟨Option.none, Option.none, false, 100⟩
        (save_cache ⟨FileState.missing, Option.none⟩
          (PyVal.pydict (snapshot_kvs PyVal.pynone
            (PyVal.pydict [("drivers", PyVal.pylist []), ("constructors", PyVal.pylist [])])
            PyVal.pynone ⟨123, Option.none⟩ PyVal.pynone)) 5 false false).file).last_update
      = some (datetime_now 5) :=
  save_load_roundtrip _ _ _ _ _ _ _ _ rfl rfl rfl rfl

/-- C7 counterexample: the timestamps the cache writes come from
`datetime.now()` and are naive — after a save/load round trip the restored
`last_update` and the snapshot's `last_updated` carry no timezone
qualifier, so the "timezone-qualified" part of the claim is false at this
concrete snapshot (the data fields themselves do round-trip). -/
theorem save_load_timezone_counterexample :
    (load_cache ⟨Option.none, Option.none, false, 100⟩
        (save_cache ⟨FileState.missing, Option.none⟩
          (PyVal.pydict (snapshot_kvs PyVal.pynone PyVal.pynone PyVal.pynone
            ⟨123, Option.none⟩ PyVal.pynone)) 5 false false).file).last_update
      = some (datetime_now 5) ∧
    timezone_qualified (datetime_now 5) = false ∧
    cachedField (load_cache ⟨Option.none, Option.none, false, 100⟩
        (save_cache ⟨FileState.missing, Option.none⟩
          (PyVal.pydict (snapshot_kvs PyVal.pynone PyVal.pynone PyVal.pynone
            ⟨123, Option.none⟩ PyVal.pynone)) 5 false false).file) "last_updated"
      = some (PyVal.pydt ⟨123, Option.none⟩) ∧
    timezone_qualified ⟨123, Option.none⟩ = false :=
  ⟨rfl, rfl, rfl, rfl⟩

/-- Python `data[k] = v` performed on the heap dict at address `i` (Python
reference semantics: dicts are heap objects, assignment mutates in
place). -/
def heap_assign (heap : List (List (String × PyVal))) (i : Nat) (k : String)
    (v : PyVal) : List (List (String × PyVal)) :=
  heap.set i (dictSet (heap.getD i []) k v)

/-- Reference-level model of the cached-data branch of `get_data`
(src/cache.py lines 163-172): `data = self.cached_data.copy()` allocates a
new dict — appended at the end of the heap — holding the same top-level
entries as the dict at address `a`; the subsequent `last_updated`
conversion writes to the copy; the address of the copy is returned. -/
def get_data_copy (heap : List (List (String × PyVal))) (a : Nat)
    (lu : Option PyDateTime) (t5 : Int) :
    Except String (List (List (String × PyVal)) × Nat) := do
  let kvs := heap.getD a []
  let kvs' ←
    match dictGet kvs "last_updated" with
    | some (.pystr s) => do
        let t ← fromisoformat s
        pure (dictSet kvs "last_updated" (PyVal.pydt t))
    | some _ => pure kvs
    | Option.none => pure (dictSet kvs "last_updated"
        (match lu with
         | some t => PyVal.pydt t
         | Option.none => PyVal.pydt (datetime_now t5)))
  pure (heap ++ [kvs'], heap.length)

theorem list_getD_set_ne {α : Type} (l : List α) (i j : Nat) (x d : α)
    (h : i ≠ j) : (l.set i x).getD j d = l.getD j d := by
  induction l generalizing i j with
  | nil => simp [List.set]
  | cons a l ih =>
    cases i with
    | zero =>
      cases j with
      | zero => exact absurd rfl h
      | succ j => simp [List.set, List.getD]
    | succ i =>
      cases j with
      | zero => simp [List.set, List.getD]
      | succ j =>
        simp only [List.set, List.getD_cons_succ]
        exact ih i j (fun hc => h (by simp [hc]))

theorem list_getD_append_left {α : Type} (l l' : List α) (j : Nat) (d : α)
    (h : j < l.length) : (l ++ l').getD j d = l.getD j d := by
  induction l generalizing j with
  | nil => simp at h
  | cons a l ih =>
    cases j with
    | zero => simp [List.getD]
    | succ j =>
      simp only [List.cons_append, List.getD_cons_succ]
      exact ih j (by simpa using h)

/-- C9: when `get_data` serves cached data it returns a fresh shallow copy
(`self.cached_data.copy()`), never the internal dict itself: the returned
address differs from the cache's internal address, and assigning to any
top-level key of the returned dict leaves the dict the cache holds
unchanged. -/
theorem get_data_returns_copy
    (heap : List (List (String × PyVal))) (a : Nat) (lu : Option PyDateTime)
    (t5 : Int) (p : List (List (String × PyVal)) × Nat)
    (ha : a < heap.length)
    (hok : get_data_copy heap a lu t5 = Except.ok p) :
    p.2 ≠ a ∧
    p.1.getD a [] = heap.getD a [] ∧
    ∀ k v, (heap_assign p.1 p.2 k v).getD a [] = p.1.getD a [] := by
  have hshape : ∃ kvs', p = (heap ++ [kvs'], heap.length) := by
    unfold get_data_copy at hok
    simp only [bind, Except.bind, pure, Except.pure] at hok
    rcases hg : dictGet (heap.getD a []) "last_updated" with _ | v
    · simp only [hg] at hok
      exact ⟨_, (Except.ok.inj hok).symm⟩
    · rcases v with _ | b | s | n | q | td | xs | kvs
      case pystr =>
        rcases s with s | ti
        · simp only [hg, fromisoformat] at hok
          exact absurd hok (by simp)
        · simp only [hg, fromisoformat] at hok
          exact ⟨_, (Except.ok.inj hok).symm⟩
      all_goals simp only [hg] at hok
      all_goals exact ⟨_, (Except.ok.inj hok).symm⟩
  obtain ⟨kvs', rfl⟩ := hshape
  refine ⟨(Nat.ne_of_lt ha).symm, list_getD_append_left heap [kvs'] a [] ha,
    fun k v => list_getD_set_ne _ _ _ _ _ (Nat.ne_of_lt ha).symm⟩

/-- Witness for C9: a one-dict heap; the copy lands at address 1 and a
store to it leaves the cached dict at address 0 unchanged. -/
theorem get_data_returns_copy_witness :
    (1 : Nat) ≠ 0 ∧
    ([[("x", PyVal.pyint 1), ("last_updated", PyVal.pydt ⟨0, Option.none⟩)],
      [("x", PyVal.pyint 1), ("last_updated", PyVal.pydt ⟨0, Option.none⟩)]].getD 0 []
      = [[("x", PyVal.pyint 1), ("last_updated", PyVal.pydt ⟨0, Option.none⟩)]].getD 0 []) ∧
    (heap_assign
        [[("x", PyVal.pyint 1), ("last_updated", PyVal.pydt ⟨0, Option.none⟩)],
         [("x", PyVal.pyint 1), ("last_updated", PyVal.pydt ⟨0, Option.none⟩)]]
        1 "x" (PyVal.pyint 99)).getD 0 []
      = [[("x", PyVal.pyint 1), ("last_updated", PyVal.pydt ⟨0, Option.none⟩)],
         [("x", PyVal.pyint 1), ("last_updated", PyVal.pydt ⟨0, Option.none⟩)]].getD 0 [] := by
  have h := get_data_returns_copy
    [[("x", PyVal.pyint 1), ("last_updated", PyVal.pydt ⟨0, Option.none⟩)]]
    0 Option.none 7
    ([[("x", PyVal.pyint 1), ("last_updated", PyVal.pydt ⟨0, Option.none⟩)],
      [("x", PyVal.pyint 1), ("last_updated", PyVal.pydt ⟨0, Option.none⟩)]], 1)
    (by decide) rfl
  exact ⟨h.1, h.2.1, h.2.2 "x" (PyVal.pyint 99)⟩
